import Mathlib

/-!
Verification of the gopay_service repository (a Python client for the GoPay
payment gateway) against its natural-language specification.

The embedding is shallow: Python dictionaries become association lists in
insertion order (Python 3.7+ dicts preserve insertion order), `datetime.now()`
becomes a `Nat` count of seconds, raising an exception becomes `Except.error`,
and an object attribute that was never assigned (dataclass fields with
`init=False` and no default) is modelled by `Attr.unset`, since reading it in
Python raises `AttributeError`.
-/

namespace GopayService

/-- A Python runtime exception, as far as the claims need to distinguish them. -/
inductive PyError where
  | attributeError
  | typeError
deriving DecidableEq, Repr

/-- A Python value as carried in request and response bodies (JSON-like). -/
inductive Val where
  | none
  | str (s : String)
  | int (n : Int)
  | dict (d : List (String × Val))
  | list (l : List Val)

/-- `d.get(k)` on a Python dict: the first binding of `k`, if any. -/
def lookup {α : Type} (d : List (String × α)) (k : String) : Option α :=
  (d.find? fun p => p.1 == k).map fun p => p.2

/-- `k in d` on a Python dict. -/
def hasKey {α : Type} (d : List (String × α)) (k : String) : Bool :=
  d.any fun p => p.1 == k

/-- `d.setdefault(k, v)`: leave `d` unchanged when `k` is present, otherwise
insert the binding at the end (Python dicts append new keys). From
`create_payment` in gopay.py, which calls `body.setdefault`. -/
def setdefault (d : List (String × Val)) (k : String) (v : Val) :
    List (String × Val) :=
  if hasKey d k then d else d ++ [(k, v)]

/-- The HTTP request assembled by `core.api_call` before it is sent:
method, url, the optional JSON/FORM body and the content kind. -/
structure Request where
  method : String
  url : String
  reqBody : Option (List (String × Val))
  content : Option String

/-- The raw HTTP response, as the `requests` library presents it to
`core.api_call`: status code, the result of attempting `response.json()`
(`some v` when the body parses as JSON, `Option.none` when `.json()` raises and
`api_call` falls back to `response.text`), the raw text, and the content-type
header. -/
structure HttpResponse where
  status_code : Nat
  jsonBody : Option Val
  text : String
  contentType : Option String

/-- `Response.ok` from the `requests` library: true exactly when the status
code is below 400 (requests documents `ok` as "True if status_code is less
than 400"). -/
def HttpResponse.ok (r : HttpResponse) : Bool :=
  decide (r.status_code < 400)

/-- The dict returned by `core.api_call` (and wrapped unchanged into
`GopayResponse` by `Gopay._handle_response`). -/
structure NormalizedResponse where
  success : Bool
  status : Nat
  resBody : Val
  content_type : Option String

/-- The response-normalization half of `core.api_call` (core.py): `success`
is `response.ok`, `status` is `response.status_code`, `body` is the parsed
JSON when `response.json()` succeeds and the raw text otherwise, and
`content_type` is taken from the headers. -/
def api_call (r : HttpResponse) : NormalizedResponse :=
  { success := r.ok
    status := r.status_code
    resBody := match r.jsonBody with
      | Option.some v => v
      | Option.none => Val.str r.text
    content_type := r.contentType }

/-- A dataclass field declared with `init=False` and no default: it is unset
until first assignment, and reading it while unset raises AttributeError. -/
inductive Attr (α : Type) where
  | unset
  | val (a : α)

/-- The mutable state of a `Gopay` instance (gopay.py): `_token`,
`_token_created` and `_last_response` are all `init=False` fields. A stored
token is a `Val` because `_get_token` stores `body.get("access_token")`,
which is Python None when the key is missing. -/
structure GopayState where
  token : Attr Val
  tokenCreated : Attr Nat
  lastResponse : Attr NormalizedResponse

/-- `Gopay._token_expired` (gopay.py): `diff = datetime.now() - self._token_created;
return diff.seconds > 1800`. `timedelta.seconds` is the within-day seconds
component of the difference, i.e. the elapsed seconds mod 86400 for a
nonnegative difference — not the total elapsed seconds. Time is modelled in
whole seconds with `now ≥ created` (the stored timestamp was taken at an
earlier instant). Reading `_token_created` while unset raises AttributeError. -/
def token_expired (s : GopayState) (now : Nat) : Except PyError Bool :=
  match s.tokenCreated with
  | Attr.unset => Except.error PyError.attributeError
  | Attr.val t0 => Except.ok (decide ((now - t0) % 86400 > 1800))

/-- `Gopay._handle_response`: record the response as `_last_response`. -/
def handle_response (s : GopayState) (r : NormalizedResponse) : GopayState :=
  { s with lastResponse := Attr.val r }

/-- `Gopay._get_token` (gopay.py): set `_token_created` to the current time
BEFORE dispatching the HTTP request, record the response via
`_handle_response`, and only when `response["success"]` store
`response["body"].get("access_token")` (a missing key stores Python None; a
non-dict body would raise AttributeError on `.get`). The HTTP outcome is
exogenous, passed in as `resp`. On failure nothing but the timestamp and
`_last_response` changes and no exception is raised. -/
def get_token (s : GopayState) (now : Nat) (resp : NormalizedResponse) :
    Except PyError GopayState :=
  let s1 := handle_response { s with tokenCreated := Attr.val now } resp
  if resp.success then
    match resp.resBody with
    | Val.dict d =>
        Except.ok { s1 with token := Attr.val ((lookup d "access_token").getD Val.none) }
    | _ => Except.error PyError.attributeError
  else Except.ok s1

/-- The `api_request` decorator (gopay.py): when `_token_expired`, call
`_get_token`; then invoke the wrapped operation with `token=self._token`
(reading `_token` raises AttributeError when no successful fetch ever stored
one), and record and return its response. `dispatch` abstracts the wrapped
rest call: given the token value it yields the gateway's normalized
response. -/
def api_request (s : GopayState) (now : Nat) (refreshResp : NormalizedResponse)
    (dispatch : Val → NormalizedResponse) :
    Except PyError (GopayState × NormalizedResponse) := do
  let expired ← token_expired s now
  let s2 ← if expired then get_token s now refreshResp else Except.ok s
  match s2.token with
  | Attr.unset => Except.error PyError.attributeError
  | Attr.val t =>
      let resp := dispatch t
      Except.ok (handle_response s2 resp, resp)

/-- A raw catalogue entry as delivered by the gateway under
`enabledPaymentInstruments` (and, nested, under `enabledSwifts`): a label
(its `cs` translation), an image (its `large` url), the currency codes it
supports (the keys of its `currencies` dict, in catalogue order) and, for
`BANK_ACCOUNT` only, the nested swift catalogue. -/
inductive RawInstrument where
  | mk (label_cs : String) (image_large : String) (currencies : List String)
      (enabledSwifts : Option (List (String × RawInstrument)))

/-- Currency codes of a raw entry. -/
def RawInstrument.currencies : RawInstrument → List String
  | RawInstrument.mk _ _ cs _ => cs

/-- `cs` label of a raw entry. -/
def RawInstrument.label_cs : RawInstrument → String
  | RawInstrument.mk l _ _ _ => l

/-- `large` image url of a raw entry. -/
def RawInstrument.image_large : RawInstrument → String
  | RawInstrument.mk _ i _ _ => i

/-- Nested swift catalogue of a raw entry (`value.get("enabledSwifts")`). -/
def RawInstrument.enabledSwifts :
    RawInstrument → Option (List (String × RawInstrument))
  | RawInstrument.mk _ _ _ sw => sw

/-- Output of `Gopay._parse_entry`: the dict
`{"name": key, "label": ..., "image": ..., "currencies": ...}`. -/
structure Entry where
  name : String
  label : String
  image : String
  currencies : List String

/-- `Gopay._parse_entry` (gopay.py): flatten one raw catalogue entry. The
source reads `value.get("label").get("cs")` and `value.get("image").get("large")`,
which assumes both keys present (it raises otherwise); the claims under study
only involve the `name`/`currencies` fields. -/
def parse_entry (key : String) (value : RawInstrument) : Entry :=
  { name := key, label := value.label_cs, image := value.image_large,
    currencies := value.currencies }

/-- `Gopay._parse_entries`: parse every catalogue entry, preserving the
catalogue's key (insertion) order. -/
def parse_entries (gopay_entries : List (String × RawInstrument)) : List Entry :=
  gopay_entries.map fun p => parse_entry p.1 p.2

/-- Output of `Gopay._filter_out_currency`: the entry dict with its
`currencies` key removed. -/
structure EntryNoCur where
  name : String
  label : String
  image : String

/-- `Gopay._filter_out_currency` (gopay.py): drop the `currencies` key. -/
def filter_out_currency (instrument : Entry) : EntryNoCur :=
  { name := instrument.name, label := instrument.label,
    image := instrument.image }

/-- `Gopay._get_entries` (gopay.py): collect every currency code referenced by
any entry (both the `swifts=False` and the `swifts=True` branch iterate the
keys of each entry's `currencies` dict, modelled as the `currencies` list),
deduplicate and sort them ascending (`sorted(list(set(currencies)))`), then
map each currency to the entries supporting it, in the original entry order,
with the `currencies` key filtered out. The result models the Python dict as
an association list in insertion order. -/
def get_entries (parsed_entries : List Entry) : List (String × List EntryNoCur) :=
  let currencies :=
    ((parsed_entries.flatMap fun instrument => instrument.currencies).dedup).insertionSort
      (fun a b => a ≤ b)
  currencies.map fun currency =>
    (currency,
      (parsed_entries.filter fun instrument =>
        decide (currency ∈ instrument.currencies)).map filter_out_currency)

/-- `Gopay._get_payment_methods` (gopay.py), given a successful response whose
body carries the raw catalogue under `enabledPaymentInstruments`: the source
evaluates `enabled_payment_instruments.get("BANK_ACCOUNT").get("enabledSwifts")`,
so a catalogue without a `BANK_ACCOUNT` key makes `.get` return None and the
second `.get` raise AttributeError; a `BANK_ACCOUNT` without `enabledSwifts`
passes None to `_parse_entries`, where `None.items()` raises. Otherwise it
stores `_parse_entries` of the full catalogue and of the swift catalogue. -/
def get_payment_methods_tables (catalogue : List (String × RawInstrument)) :
    Except PyError (List Entry × List Entry) :=
  match lookup catalogue "BANK_ACCOUNT" with
  | Option.none => Except.error PyError.attributeError
  | Option.some bank =>
      match bank.enabledSwifts with
      | Option.none => Except.error PyError.attributeError
      | Option.some swifts =>
          Except.ok (parse_entries catalogue, parse_entries swifts)

/-- The spec's example swift catalogue nested under
`BANK_ACCOUNT.enabledSwifts`: AAAA supports CZK, BBBB supports EUR. The
example elides label and image, which the claims do not involve. -/
def exampleSwifts : List (String × RawInstrument) :=
  [("AAAA", RawInstrument.mk "" "" ["CZK"] Option.none),
   ("BBBB", RawInstrument.mk "" "" ["EUR"] Option.none)]

/-- The spec's example raw catalogue: a single `BANK_ACCOUNT` instrument
supporting CZK and EUR, with the example swifts nested under it. -/
def exampleCatalogue : List (String × RawInstrument) :=
  [("BANK_ACCOUNT",
    RawInstrument.mk "" "" ["CZK", "EUR"] (Option.some exampleSwifts))]

/-- An API date (gopay_types.api_date): either a pre-formatted string or a
Python `datetime.date`, whose `str()` is the ISO `YYYY-MM-DD` form. -/
inductive ApiDate where
  | str (s : String)
  | date (y m d : Nat)

/-- Zero-pad to two digits, as `date.__str__` does for month and day. -/
def pad2 (n : Nat) : String :=
  if n < 10 then "0" ++ toString n else toString n

/-- Zero-pad to four digits, as `date.__str__` does for the year. -/
def pad4 (n : Nat) : String :=
  if n < 10 then "000" ++ toString n
  else if n < 100 then "00" ++ toString n
  else if n < 1000 then "0" ++ toString n
  else toString n

/-- `str(d)` applied to an api_date value, as done by `Gopay.eet_receipts`
and `Gopay.account_statement` before transmission. -/
def ApiDate.toStr : ApiDate → String
  | ApiDate.str s => s
  | ApiDate.date y m d => pad4 y ++ "-" ++ pad2 m ++ "-" ++ pad2 d

/-- `rest.create_payment` (rest.py): one POST to `{api_root}/payments/payment`
with the JSON body. -/
def rest_create_payment (api_root : String) (body : List (String × Val)) :
    Request :=
  { method := "POST", url := api_root ++ "/payments/payment",
    reqBody := Option.some body, content := Option.some "JSON" }

/-- The default target dict `{"type": "ACCOUNT", "goid": self.goid}` from
`Gopay.create_payment`. -/
def default_target (goid : Val) : Val :=
  Val.dict [("type", Val.str "ACCOUNT"), ("goid", goid)]

/-- `Gopay.create_payment` (gopay.py), up to the dispatched request:
`body.setdefault("target", {"type": "ACCOUNT", "goid": self.goid})`, then
`rest.create_payment(body=body, ...)`. -/
def create_payment_request (api_root : String) (goid : Val)
    (body : List (String × Val)) : Request :=
  rest_create_payment api_root
    (setdefault body "target" (default_target goid))

/-- `rest.eet_receipts` (rest.py): the source line reads
`return api_root(url=f"{api_root}/eet-receipts", ...)` — it applies
`api_root`, a string, as a function instead of calling `api_call`, so every
invocation raises `TypeError: str object is not callable` before any HTTP
request exists. -/
def rest_eet_receipts (_api_root : String) (_body : List (String × Val)) :
    Except PyError Request :=
  Except.error PyError.typeError

/-- `Gopay.eet_receipts` (gopay.py), up to the dispatched rest call: build
the body with string-normalized dates and the premise id, then call
`rest.eet_receipts`. -/
def eet_receipts_request (api_root : String) (id_provozovny : Val)
    (date_from date_to : ApiDate) : Except PyError Request :=
  rest_eet_receipts api_root
    [("date_from", Val.str date_from.toStr),
     ("date_to", Val.str date_to.toStr),
     ("id_provozovny", id_provozovny)]

/-- The URL built by `rest.get_payment_methods` (rest.py):
`f"{api_root}/eshops/eshop/{goid}/payment-instruments/{currency if currency else ''}"`.
A Python string is falsy exactly when empty and an absent currency is None
(falsy), so the final segment is the currency when truthy and the empty
string otherwise — the slash before it is always emitted. -/
def get_payment_methods_url (api_root : String) (goid : String)
    (currency : Option String) : String :=
  api_root ++ "/eshops/eshop/" ++ goid ++ "/payment-instruments/" ++
    (match currency with
     | Option.some c => if c = "" then "" else c
     | Option.none => "")

end GopayService

namespace GopayService

/-- Helper: projecting the first component of a key-tagged map recovers the
key list. -/
lemma map_fst_pair {α β : Type} (g : α → β) (l : List α) :
    (l.map fun c => (c, g c)).map Prod.fst = l := by
  induction l with
  | nil => rfl
  | cons a l ih => simp only [List.map_cons, ih]

/-- Helper: the keys of `get_entries` are the sorted deduplicated currency
codes. -/
lemma get_entries_keys (parsed_entries : List Entry) :
    (get_entries parsed_entries).map Prod.fst =
      ((parsed_entries.flatMap fun instrument =>
        instrument.currencies).dedup).insertionSort (fun a b => a ≤ b) := by
  simp only [get_entries]
  exact map_fst_pair _ _

/-- Helper: membership in the keys of `get_entries` is exactly being a
currency referenced by some entry. -/
lemma mem_get_entries_keys (parsed_entries : List Entry) (c : String) :
    c ∈ (get_entries parsed_entries).map Prod.fst ↔
      ∃ e ∈ parsed_entries, c ∈ e.currencies := by
  rw [get_entries_keys, List.mem_insertionSort, List.mem_dedup,
    List.mem_flatMap]

/-- Helper: the keys of `get_entries` are strictly sorted (ascending and
duplicate-free). -/
lemma get_entries_keys_sorted (parsed_entries : List Entry) :
    List.Sorted (fun a b => a < b)
      ((get_entries parsed_entries).map Prod.fst) := by
  rw [get_entries_keys]
  have hs : List.Sorted (fun a b : String => a ≤ b)
      (((parsed_entries.flatMap fun instrument =>
        instrument.currencies).dedup).insertionSort (fun a b => a ≤ b)) :=
    List.sorted_insertionSort _ _
  have hn : (((parsed_entries.flatMap fun instrument =>
      instrument.currencies).dedup).insertionSort (fun a b => a ≤ b)).Nodup :=
    (List.perm_insertionSort _ _).nodup_iff.mpr (List.nodup_dedup _)
  exact (hs.and hn).imp fun h => lt_of_le_of_ne h.1 h.2

/-- Helper: each table row's value is the filtered entry list of its key. -/
lemma get_entries_value (parsed_entries : List Entry)
    (p : String × List EntryNoCur) (hp : p ∈ get_entries parsed_entries) :
    p.2 = (parsed_entries.filter fun instrument =>
      decide (p.1 ∈ instrument.currencies)).map filter_out_currency := by
  simp only [get_entries, List.mem_map] at hp
  obtain ⟨c, _, hc⟩ := hp
  rw [← hc]

/-- Helper: `["CZK", "EUR"]` is sorted under the string order (via the
character-list order, which the kernel can evaluate). -/
lemma sorted_czk_eur : List.Sorted (fun a b : String => a ≤ b) ["CZK", "EUR"] := by
  simp only [List.sorted_cons, List.mem_singleton]
  refine ⟨fun b hb => ?_, by simp⟩
  subst hb
  rw [String.le_iff_toList_le]
  decide

/-- C2 counterexample: a 304 response with a well-formed (empty) JSON body is
normalized with `success = true`, yet 304 does not lie in [200, 300), so
`success` is not `status ∈ [200, 300)`. -/
theorem api_call_success_at_304 :
    (api_call ⟨304, Option.some (Val.dict []), "", Option.none⟩).success = true ∧
    ¬(200 ≤ (api_call ⟨304, Option.some (Val.dict []), "", Option.none⟩).status ∧
      (api_call ⟨304, Option.some (Val.dict []), "", Option.none⟩).status < 300) := by
  refine ⟨rfl, ?_⟩
  intro h
  exact absurd h.2 (by decide)

/-- C2 amended: for every response normalized by `api_call`, `success` is true
iff the status code is below 400 (the `requests` notion of a non-error
response), and `success` depends only on the status code, never on the body
or content type. -/
theorem api_call_success_iff_lt_400 (r : HttpResponse) :
    ((api_call r).success = true ↔ r.status_code < 400) ∧
    (∀ r' : HttpResponse, r'.status_code = r.status_code →
      (api_call r').success = (api_call r).success) := by
  constructor
  · simp [api_call, HttpResponse.ok]
  · intro r' h
    simp [api_call, HttpResponse.ok, h]

/-- Witness for `api_call_success_iff_lt_400` at a concrete 200 response and a
body-varied twin with the same status. -/
theorem api_call_success_iff_lt_400_witness :
    ((api_call ⟨200, Option.none, "ok", Option.none⟩).success = true ↔ 200 < 400) ∧
    (api_call ⟨200, Option.some (Val.dict []), "", Option.none⟩).success =
      (api_call ⟨200, Option.none, "ok", Option.none⟩).success :=
  ⟨(api_call_success_iff_lt_400 ⟨200, Option.none, "ok", Option.none⟩).1,
   (api_call_success_iff_lt_400 ⟨200, Option.none, "ok", Option.none⟩).2
     ⟨200, Option.some (Val.dict []), "", Option.none⟩ rfl⟩

/-- C1: `_token_expired` computes `timedelta.seconds`, the within-day
component of the elapsed time, so 87000 s (1 day 10 min) after issuance the
token is NOT treated as stale although far more than 1800 s have elapsed;
the claim's boundary examples at 1799 s and 1801 s do behave as stated. -/
theorem token_expired_seconds_bug :
    token_expired ⟨Attr.val (Val.str "tok"), Attr.val 0, Attr.unset⟩ 87000 =
      Except.ok false ∧
    (87000 : Nat) > 1800 ∧
    token_expired ⟨Attr.val (Val.str "tok"), Attr.val 0, Attr.unset⟩ 1799 =
      Except.ok false ∧
    token_expired ⟨Attr.val (Val.str "tok"), Attr.val 0, Attr.unset⟩ 1801 =
      Except.ok true :=
  ⟨rfl, by decide, rfl, rfl⟩

/-- C3 counterexample: with a stale timestamp but NO token ever stored (the
very first fetch failed), a failed refresh leaves the token absent and the
wrapper's subsequent read of `self._token` raises AttributeError — the
requested operation is NOT dispatched, contrary to the claim that it is
dispatched with the (possibly absent) token. -/
theorem api_request_absent_token_raises :
    api_request ⟨Attr.unset, Attr.val 0, Attr.unset⟩ 2000
      ⟨false, 403, Val.dict [], Option.none⟩
      (fun _ => ⟨true, 200, Val.dict [], Option.none⟩) =
      Except.error PyError.attributeError := rfl

/-- C3 amended: when a token IS stored and stale and the refresh fails, no
exception is raised: `_get_token` records the full refresh response as
`_last_response`, leaves the stored token in place, and the requested
operation is dispatched with that old token (its response then overwriting
`_last_response`). When no token was ever stored, the wrapper instead raises
AttributeError on reading `self._token`. -/
theorem api_request_failed_refresh (s : GopayState) (now : Nat)
    (refreshResp : NormalizedResponse) (dispatch : Val → NormalizedResponse)
    (t : Val) (htok : s.token = Attr.val t)
    (hexp : token_expired s now = Except.ok true)
    (hfail : refreshResp.success = false) :
    get_token s now refreshResp =
      Except.ok { s with tokenCreated := Attr.val now,
                         lastResponse := Attr.val refreshResp } ∧
    ({ s with tokenCreated := Attr.val now,
              lastResponse := Attr.val refreshResp } : GopayState).token =
      Attr.val t ∧
    api_request s now refreshResp dispatch =
      Except.ok ({ token := Attr.val t, tokenCreated := Attr.val now,
                   lastResponse := Attr.val (dispatch t) }, dispatch t) := by
  obtain ⟨tok, created, last⟩ := s
  simp only [GopayState.mk.injEq] at htok ⊢
  refine ⟨?_, ?_, ?_⟩
  · simp [get_token, handle_response, hfail]
  · exact htok
  · subst htok
    simp [api_request, hexp, get_token, handle_response, hfail, Bind.bind,
      Except.bind]

/-- Witness for `api_request_failed_refresh`: a stale stored token at a
concrete state, a failed 403 refresh, and a constant dispatch. -/
theorem api_request_failed_refresh_witness :
    api_request ⟨Attr.val (Val.str "old"), Attr.val 0, Attr.unset⟩ 2000
      ⟨false, 403, Val.dict [], Option.none⟩
      (fun _ => ⟨true, 200, Val.dict [], Option.none⟩) =
      Except.ok (⟨Attr.val (Val.str "old"), Attr.val 2000,
          Attr.val ⟨true, 200, Val.dict [], Option.none⟩⟩,
        ⟨true, 200, Val.dict [], Option.none⟩) :=
  (api_request_failed_refresh ⟨Attr.val (Val.str "old"), Attr.val 0, Attr.unset⟩
    2000 ⟨false, 403, Val.dict [], Option.none⟩
    (fun _ => ⟨true, 200, Val.dict [], Option.none⟩)
    (Val.str "old") rfl rfl rfl).2.2

/-- C10: `_get_token` stamps `_token_created := now` before dispatching and
regardless of the outcome; consequently, after a failed refresh at `now`, for
any delay `d ≤ 1800` the token is not considered expired, so `api_request`
attempts no further refresh and dispatches the operation with the previously
stored token value. -/
theorem get_token_stamps_time_regardless (s : GopayState) (now d : Nat)
    (refreshResp next : NormalizedResponse) (dispatch : Val → NormalizedResponse)
    (t : Val) (hd : d ≤ 1800) (hfail : refreshResp.success = false)
    (htok : s.token = Attr.val t) :
    (∀ r : NormalizedResponse, ∀ s2 : GopayState,
        get_token s now r = Except.ok s2 → s2.tokenCreated = Attr.val now) ∧
    get_token s now refreshResp =
      Except.ok { s with tokenCreated := Attr.val now,
                         lastResponse := Attr.val refreshResp } ∧
    token_expired { s with tokenCreated := Attr.val now,
                           lastResponse := Attr.val refreshResp } (now + d) =
      Except.ok false ∧
    api_request { s with tokenCreated := Attr.val now,
                         lastResponse := Attr.val refreshResp }
        (now + d) next dispatch =
      Except.ok ({ token := Attr.val t, tokenCreated := Attr.val now,
                   lastResponse := Attr.val (dispatch t) }, dispatch t) := by
  obtain ⟨tok, created, last⟩ := s
  simp only [GopayState.mk.injEq] at htok
  subst htok
  have hmod : (now + d - now) % 86400 = d := by omega
  have hexp : token_expired
      ({ token := Attr.val t, tokenCreated := Attr.val now,
         lastResponse := Attr.val refreshResp } : GopayState) (now + d) =
      Except.ok false := by
    simp only [token_expired, hmod]
    simp only [Except.ok.injEq, decide_eq_false_iff_not, not_lt]
    omega
  refine ⟨?_, ?_, hexp, ?_⟩
  · intro r s2 h
    by_cases hr : r.success = true
    · simp only [get_token, handle_response, hr, if_true] at h
      cases hb : r.resBody <;> simp [hb] at h
      simp [← h]
    · simp only [get_token, handle_response, eq_false_of_ne_true hr,
        Bool.false_eq_true, if_false, Except.ok.injEq] at h
      simp [← h]
  · simp [get_token, handle_response, hfail]
  · simp [api_request, hexp, handle_response, Bind.bind, Except.bind]

/-- Witness for `get_token_stamps_time_regardless`: a failed refresh at time
5000 with an old stored token, checked 1800 s later. -/
theorem get_token_stamps_time_regardless_witness :
    api_request ⟨Attr.val (Val.str "old"), Attr.val 5000,
        Attr.val ⟨false, 403, Val.dict [], Option.none⟩⟩
      6800 ⟨false, 403, Val.dict [], Option.none⟩
      (fun _ => ⟨true, 200, Val.dict [], Option.none⟩) =
      Except.ok (⟨Attr.val (Val.str "old"), Attr.val 5000,
          Attr.val ⟨true, 200, Val.dict [], Option.none⟩⟩,
        ⟨true, 200, Val.dict [], Option.none⟩) :=
  (get_token_stamps_time_regardless
    ⟨Attr.val (Val.str "old"), Attr.val 99, Attr.unset⟩ 5000 1800
    ⟨false, 403, Val.dict [], Option.none⟩
    ⟨false, 403, Val.dict [], Option.none⟩
    (fun _ => ⟨true, 200, Val.dict [], Option.none⟩)
    (Val.str "old") (by decide) rfl rfl).2.2.2

/-- C4: `_get_entries` produces a table whose keys are exactly the
deduplicated currency codes referenced by any entry, strictly ascending in
the lexicographic string order, and whose value for each currency is the
list of entries supporting it in the catalogue's original key order (with
the `currencies` key dropped); on the spec's example catalogue the
name-projected tables are `{CZK: [BANK_ACCOUNT], EUR: [BANK_ACCOUNT]}` and
`{CZK: [AAAA], EUR: [BBBB]}`. -/
theorem get_entries_spec (parsed_entries : List Entry) :
    List.Sorted (fun a b : String => a < b)
      ((get_entries parsed_entries).map Prod.fst) ∧
    (∀ c, c ∈ (get_entries parsed_entries).map Prod.fst ↔
      ∃ e ∈ parsed_entries, c ∈ e.currencies) ∧
    (∀ p ∈ get_entries parsed_entries,
      p.2 = (parsed_entries.filter fun instrument =>
        decide (p.1 ∈ instrument.currencies)).map filter_out_currency) ∧
    ((get_entries (parse_entries exampleCatalogue)).map fun p =>
        (p.1, p.2.map EntryNoCur.name)) =
      [("CZK", ["BANK_ACCOUNT"]), ("EUR", ["BANK_ACCOUNT"])] ∧
    ((get_entries (parse_entries exampleSwifts)).map fun p =>
        (p.1, p.2.map EntryNoCur.name)) =
      [("CZK", ["AAAA"]), ("EUR", ["BBBB"])] := by
  refine ⟨get_entries_keys_sorted parsed_entries,
    mem_get_entries_keys parsed_entries, get_entries_value parsed_entries,
    ?_, ?_⟩
  · have step : get_entries (parse_entries exampleCatalogue) =
        (List.insertionSort (fun a b : String => a ≤ b) ["CZK", "EUR"]).map
          fun currency =>
            (currency,
              ((parse_entries exampleCatalogue).filter fun instrument =>
                decide (currency ∈ instrument.currencies)).map
                filter_out_currency) := rfl
    rw [step, sorted_czk_eur.insertionSort_eq]
    rfl
  · have step : get_entries (parse_entries exampleSwifts) =
        (List.insertionSort (fun a b : String => a ≤ b) ["CZK", "EUR"]).map
          fun currency =>
            (currency,
              ((parse_entries exampleSwifts).filter fun instrument =>
                decide (currency ∈ instrument.currencies)).map
                filter_out_currency) := rfl
    rw [step, sorted_czk_eur.insertionSort_eq]
    rfl

/-- Witness for `get_entries_spec`: CZK is a key of the table for a
one-instrument catalogue, via the key-membership characterization. -/
theorem get_entries_spec_witness :
    "CZK" ∈ (get_entries [⟨"BANK_ACCOUNT", "", "", ["CZK", "EUR"]⟩]).map
      Prod.fst :=
  ((get_entries_spec [⟨"BANK_ACCOUNT", "", "", ["CZK", "EUR"]⟩]).2.1
      "CZK").mpr
    ⟨⟨"BANK_ACCOUNT", "", "", ["CZK", "EUR"]⟩, List.mem_singleton.mpr rfl,
      by decide⟩

/-- C5 counterexample: a swift catalogue whose single entry declares the
currency "USD" yields a swift table with key "USD", outside {CZK, EUR, PLN};
the code applies no restriction to that fixed set. -/
theorem enabled_swifts_usd_key :
    (get_entries (parse_entries
        [("CCCC", RawInstrument.mk "" "" ["USD"] Option.none)])).map
      Prod.fst = ["USD"] ∧
    ("USD" : String) ∉ (["CZK", "EUR", "PLN"] : List String) :=
  ⟨rfl, by decide⟩

/-- C5 amended: the swift table's keys are exactly the currency codes
declared by the entries of the raw swift catalogue — whatever they are; no
restriction to the fixed set {CZK, EUR, PLN} is applied. -/
theorem enabled_swifts_keys (raw : List (String × RawInstrument))
    (c : String) :
    c ∈ (get_entries (parse_entries raw)).map Prod.fst ↔
      ∃ p ∈ raw, c ∈ p.2.currencies := by
  rw [mem_get_entries_keys]
  constructor
  · rintro ⟨e, he, hc⟩
    simp only [parse_entries, List.mem_map] at he
    obtain ⟨p, hp, rfl⟩ := he
    exact ⟨p, hp, hc⟩
  · rintro ⟨p, hp, hc⟩
    exact ⟨parse_entry p.1 p.2, List.mem_map.mpr ⟨p, hp, rfl⟩, hc⟩

/-- Witness for `enabled_swifts_keys`: the USD-only swift catalogue has USD
among its keys. -/
theorem enabled_swifts_keys_witness :
    "USD" ∈ (get_entries (parse_entries
        [("CCCC", RawInstrument.mk "" "" ["USD"] Option.none)])).map
      Prod.fst :=
  (enabled_swifts_keys
      [("CCCC", RawInstrument.mk "" "" ["USD"] Option.none)] "USD").mpr
    ⟨("CCCC", RawInstrument.mk "" "" ["USD"] Option.none),
      List.mem_singleton.mpr rfl, by decide⟩

/-- C6 counterexample: a raw catalogue with no `BANK_ACCOUNT` key makes the
table rebuild raise AttributeError (`None.get("enabledSwifts")`) instead of
succeeding with an empty swift table. -/
theorem get_payment_methods_missing_bank_account :
    lookup [("PAYMENT_CARD", RawInstrument.mk "Karta" "img" ["CZK"]
        Option.none)] "BANK_ACCOUNT" = Option.none ∧
    get_payment_methods_tables
        [("PAYMENT_CARD", RawInstrument.mk "Karta" "img" ["CZK"]
          Option.none)] =
      Except.error PyError.attributeError :=
  ⟨rfl, rfl⟩

/-- C6 amended: for every raw catalogue without a `BANK_ACCOUNT` key,
rebuilding the tables raises AttributeError; no (empty) swift table is
produced. -/
theorem get_payment_methods_no_bank_account
    (catalogue : List (String × RawInstrument))
    (h : lookup catalogue "BANK_ACCOUNT" = Option.none) :
    get_payment_methods_tables catalogue =
      Except.error PyError.attributeError := by
  simp [get_payment_methods_tables, h]

/-- Witness for `get_payment_methods_no_bank_account` at the empty
catalogue. -/
theorem get_payment_methods_no_bank_account_witness :
    get_payment_methods_tables [] = Except.error PyError.attributeError :=
  get_payment_methods_no_bank_account [] rfl

/-- C7: a body without a `target` key is dispatched as the caller's body with
all bindings unchanged plus `target = {type: ACCOUNT, goid}` appended; a body
that already has a `target` key is dispatched untouched. The request is a
POST to `{api_root}/payments/payment`. -/
theorem create_payment_default_target (api_root : String) (goid : Val)
    (body : List (String × Val)) :
    (hasKey body "target" = false →
      (create_payment_request api_root goid body).reqBody =
        Option.some (body ++ [("target", default_target goid)])) ∧
    (hasKey body "target" = true →
      (create_payment_request api_root goid body).reqBody =
        Option.some body) ∧
    (create_payment_request api_root goid body).method = "POST" ∧
    (create_payment_request api_root goid body).url =
      api_root ++ "/payments/payment" := by
  refine ⟨fun h => ?_, fun h => ?_, rfl, rfl⟩
  · simp [create_payment_request, rest_create_payment, setdefault, h]
  · simp [create_payment_request, rest_create_payment, setdefault, h]

/-- Witness for `create_payment_default_target`: the spec's round-trip body
without a `target` field gets the default target appended and nothing else
changed. -/
theorem create_payment_default_target_witness :
    (create_payment_request "https://gw.sandbox.gopay.com"
        (Val.int 8123456789)
        [("amount", Val.int 12000), ("currency", Val.str "CZK")]).reqBody =
      Option.some [("amount", Val.int 12000), ("currency", Val.str "CZK"),
        ("target", default_target (Val.int 8123456789))] :=
  (create_payment_default_target "https://gw.sandbox.gopay.com"
    (Val.int 8123456789)
    [("amount", Val.int 12000), ("currency", Val.str "CZK")]).1 rfl

/-- C8: `rest.eet_receipts` applies the string `api_root` as a function
instead of calling `api_call`, so the whole operation raises TypeError and
no POST to `{api_root}/eet-receipts` is ever issued; evaluated here at a
concrete invocation with one string date and one structured date. -/
theorem eet_receipts_type_error :
    eet_receipts_request "https://gw.sandbox.gopay.com" (Val.int 1)
      (ApiDate.str "2024-01-01") (ApiDate.date 2024 1 2) =
      Except.error PyError.typeError := rfl

/-- C9 counterexample: with no currency the constructed URL keeps the slash
and carries an empty final segment — it is `.../payment-instruments/`, not
the claimed `.../payment-instruments` with the segment omitted entirely. -/
theorem get_payment_methods_url_trailing_slash :
    get_payment_methods_url "https://gw.sandbox.gopay.com" "8123456789"
        Option.none =
      "https://gw.sandbox.gopay.com/eshops/eshop/8123456789/payment-instruments/" ∧
    get_payment_methods_url "https://gw.sandbox.gopay.com" "8123456789"
        Option.none ≠
      "https://gw.sandbox.gopay.com/eshops/eshop/8123456789/payment-instruments" :=
  ⟨rfl, by decide⟩

/-- C9 amended: with no currency the URL is the payment-instruments path
with its trailing slash kept (an empty final segment); with a nonempty
currency the URL ends in that currency code. -/
theorem get_payment_methods_url_spec (api_root goid : String) :
    get_payment_methods_url api_root goid Option.none =
      api_root ++ "/eshops/eshop/" ++ goid ++ "/payment-instruments/" ∧
    (∀ c : String, c ≠ "" →
      get_payment_methods_url api_root goid (Option.some c) =
        api_root ++ "/eshops/eshop/" ++ goid ++ "/payment-instruments/" ++ c) := by
  constructor
  · simp [get_payment_methods_url]
  · intro c hc
    simp [get_payment_methods_url, hc]

/-- Witness for `get_payment_methods_url_spec`: the URL with currency CZK. -/
theorem get_payment_methods_url_spec_witness :
    get_payment_methods_url "https://gw.sandbox.gopay.com" "8123456789"
        (Option.some "CZK") =
      "https://gw.sandbox.gopay.com" ++ "/eshops/eshop/" ++ "8123456789" ++
        "/payment-instruments/" ++ "CZK" :=
  (get_payment_methods_url_spec "https://gw.sandbox.gopay.com"
    "8123456789").2 "CZK" (by decide)

end GopayService
